import Mathlib

/-!
Verification development for the inbound-document intake and idempotent
ledger pipeline of the resume-sorter backend (src/server.js).

Strings from the JavaScript source are modelled as `List Char`; the empty
list plays the role of both the empty string and a falsy/undefined string
argument.  External effects (the spreadsheet ledger, the AI scorer, the
byte decoder, the PDF/DOCX parsers, the e-mail channel and the content
hash) are modelled as explicit parameters: reads that the source wraps in
a try/catch are given a Boolean failure flag, and fallible external
parsers return an `Except`.  All definitions are executable and follow the
source function they embed line by line.
-/

namespace ResumeSorter

/-- Whitespace for the JavaScript "trim" operation (ASCII whitespace plus
the common Unicode space characters handled by the runtime). -/
def isJsWs (c : Char) : Bool :=
  decide (c.toNat = 32 ∨ c.toNat = 9 ∨ c.toNat = 10 ∨ c.toNat = 11 ∨ c.toNat = 12 ∨
    c.toNat = 13 ∨ c.toNat = 0xa0 ∨ c.toNat = 0xfeff ∨ c.toNat = 0x2028 ∨ c.toNat = 0x2029)

/-- Model of the JavaScript "String.prototype.trim": drop whitespace from
both ends. -/
def trimChars (l : List Char) : List Char :=
  ((l.dropWhile isJsWs).reverse.dropWhile isJsWs).reverse

/-- Model of the source helper "safeStr" applied to a string value:
coercion to a string followed by a trim (server.js line 1148). -/
def safeStrL (l : List Char) : List Char := trimChars l

/-- Model of "String.prototype.toLowerCase", character by character
(basic-latin case mapping). -/
def jsToLower (l : List Char) : List Char := l.map Char.toLower

/-- Removal of NUL characters, modelling the replace of the \u0000 global
match by the empty string in the ".txt" extraction branch. -/
def removeNulls (l : List Char) : List Char := l.filter (fun c => c.toNat ≠ 0)

/-- Model of the repeated source idiom
"s.split(',').map(t => t.trim()).filter(Boolean)". -/
def splitCsvTrim (s : List Char) : List (List Char) :=
  ((s.splitOn ',').map trimChars).filter (fun p => p ≠ [])

/-- Model of "parts.join(', ')". -/
def joinCsv (parts : List (List Char)) : List Char :=
  List.intercalate ", ".data parts

/-- Model of "appendNote" (server.js lines 1185-1191): append a note to a
comma-separated list unless an exactly matching part is already present. -/
def appendNote (existing note : List Char) : List Char :=
  let ex := safeStrL existing
  if ex = [] then note
  else
    let parts := (ex.splitOn ',').map trimChars
    if note ∈ parts then ex else ex ++ ", ".data ++ note

/-- Model of "stripR2FromNotes" (server.js lines 1176-1184): drop the
comma-separated parts that start (case-insensitively) with "r2:". -/
def stripR2FromNotes (notes : List Char) : List Char :=
  let n := safeStrL notes
  if n = [] then []
  else
    joinCsv (((n.splitOn ',').map trimChars).filter
      (fun p => p ≠ [] ∧ ¬ ("r2:".data).isPrefixOf (jsToLower p)))

/-- Token-presence test on the raw content of the token-set cell (column
G), as performed both by the duplicate check in "tallyApply" (lines
2141-2149) and by the AI idempotency pre-check (lines 2427-2434): read the
cell through "safeStr", and when the result is non-empty split it on
commas, trim, drop empties and test membership. -/
def gHasToken (tokensG : List Char) (tok : List Char) : Bool :=
  let currentG := safeStrL tokensG
  if currentG = [] then false else decide (tok ∈ splitCsvTrim currentG)

/-- Document category, as produced by the classifier. -/
inductive DocType where
  | RESUME
  | NON_RESUME
deriving DecidableEq, Repr

/-- Strong resume keyword signals (server.js lines 1929-1943). -/
def resumeStrong : List (List Char) :=
  ["professional summary", "work experience", "employment history", "experience",
   "education", "skills", "certifications", "certification", "projects", "objective",
   "curriculum vitae", "resume", "linkedin"].map String.data

/-- Weak resume keyword signals (server.js lines 1946-1960). -/
def resumeWeak : List (List Char) :=
  ["responsibilities", "achievements", "accomplishments", "references",
   "technical skills", "core competencies", "profile", "summary", "high school",
   "university", "college", "bachelor", "diploma"].map String.data

/-- Strong non-resume keyword signals (server.js lines 1963-1975). -/
def nonResumeStrong : List (List Char) :=
  ["invoice", "amount due", "subtotal", "total due", "payment", "bill to",
   "ship to", "purchase order", "po number", "statement of account",
   "terms and conditions"].map String.data

/-- Model of "text.includes(k)": the keyword occurs as a contiguous
substring of the text. -/
def hasKw (text kw : List Char) : Bool := decide (kw <:+: text)

/-- Model of the local "countAny" of the classifier: the number of
keywords from the list that occur in the text. -/
def countAny (text : List Char) (keys : List (List Char)) : Nat :=
  keys.foldl (fun n k => if hasKw text k then n + 1 else n) 0

/-- Model of the local "hasAny" of the classifier. -/
def hasAny (text : List Char) (keys : List (List Char)) : Bool :=
  keys.any (fun k => hasKw text k)

/-- Core of the classifier, operating on the already lower-cased text
(server.js lines 1921-1984). -/
def classifyCore (text : List Char) : DocType :=
  let letters := text.countP (fun c => decide (97 ≤ c.toNat ∧ c.toNat ≤ 122))
  if letters < 80 then .NON_RESUME
  else
    let resumeScore := countAny text resumeStrong * 3 + countAny text resumeWeak
    let nonResumeScore := countAny text nonResumeStrong * 3
    if hasAny text resumeStrong = true ∧ nonResumeScore < resumeScore then .RESUME
    else if 3 ≤ resumeScore ∧ nonResumeScore ≤ resumeScore then .RESUME
    else if 3 ≤ nonResumeScore ∧ resumeScore < nonResumeScore then .NON_RESUME
    else .NON_RESUME

/-- Model of "classifyDocTypeFromText" (server.js lines 1918-1985): the
input is lower-cased first, and all scoring happens on the lower-cased
text. -/
def classifyDocTypeFromText (textRaw : List Char) : DocType :=
  classifyCore (jsToLower textRaw)

/-- Allow/block decision of the billing gate. -/
structure Gate where
  allowed : Bool
  reason : Option (List Char)
deriving DecidableEq, Repr

/-- Model of "isProcessingAllowed" (server.js lines 1834-1847): the raw
billing status is trimmed and lower-cased, then compared against the
known status strings, in source order; unrecognized or empty statuses are
allowed. -/
def isProcessingAllowed (billingStatusRaw : List Char) : Gate :=
  let s := jsToLower (safeStrL billingStatusRaw)
  if s = [] then ⟨true, none⟩
  else if s = "trial".data ∨ s = "trialing".data then ⟨true, none⟩
  else if s = "active".data then ⟨true, none⟩
  else if s = "trial_ended".data then ⟨false, some "trial_ended".data⟩
  else if s = "past_due".data then ⟨false, some "past_due".data⟩
  else if s = "canceled".data then ⟨false, some "canceled".data⟩
  else if s = "unpaid".data then ⟨false, some "unpaid".data⟩
  else ⟨true, none⟩

/-- Model of "looksGarbledText" (server.js lines 1861-1868): take the
first 2000 characters, trim, and reject when the sample is empty or the
fraction of basic-latin letters is below five percent.  For samples of at
most 2000 characters the floating-point comparison of the source agrees
exactly with the rational comparison 20 * letters < length, which is what
is used here. -/
def looksGarbledText (s : List Char) : Bool :=
  let sample := s.take 2000
  let trimmed := trimChars sample
  if trimmed = [] then true
  else
    let letters := trimmed.countP (fun c =>
      decide ((65 ≤ c.toNat ∧ c.toNat ≤ 90) ∨ (97 ≤ c.toNat ∧ c.toNat ≤ 122)))
    decide (20 * letters < trimmed.length)

/-- Model of "String.prototype.endsWith". -/
def endsWithStr (s suf : List Char) : Bool := suf.isSuffixOf s

/-- Model of "extractTextFromBuffer" (server.js lines 1870-1913).  The
byte decoder "decodeTextSmartBuf" (BOM sniffing plus UTF decoding, an
operation of the runtime's Buffer) is passed in as "decodeBytes"; the
external PDF and DOCX parsers are passed in as "Except" outcomes, where
"Except.error" models a parser that threw.  Every failure branch of the
source returns the empty string, and the garbled-text heuristic discards
the parsed PDF text. -/
def extractTextFromBuffer (filename : List Char) (buf : List Nat)
    (decodeBytes : List Nat → List Char)
    (pdfOutcome docxOutcome : Except Unit (List Char)) : List Char :=
  let nameLower := jsToLower filename
  if endsWithStr nameLower ".txt".data then
    removeNulls (safeStrL (decodeBytes buf))
  else if endsWithStr nameLower ".pdf".data then
    match pdfOutcome with
    | .error _ => []
    | .ok parsedText =>
      let text := safeStrL parsedText
      if looksGarbledText text then [] else text
  else if endsWithStr nameLower ".docx".data then
    match docxOutcome with
    | .error _ => []
    | .ok rawValue => safeStrL rawValue
  else
    removeNulls (safeStrL (decodeBytes buf))

/-- One ledger day row: columns A through H of the tally sheet, in the
layout written by "createTallySheetForCustomer" (server.js line 2279):
A date, B count, C notes, D customerId, E latest r2Key, F file link,
G idempotency-token csv, H last score. -/
structure TallyRow where
  dateA : List Char
  countB : Nat
  notesC : List Char
  custD : List Char
  r2E : List Char
  fileF : List Char
  tokensG : List Char
  scoreH : Option Int
deriving DecidableEq, Repr

/-- Columns of the tally sheet that "tallyApply" can write. -/
inductive Col where
  | B
  | C
  | D
  | E
  | F
  | G
  | H
deriving DecidableEq, Repr

/-- Value written to a single cell. -/
inductive CellVal where
  | num (n : Nat)
  | str (s : List Char)
  | int (i : Int)
deriving DecidableEq, Repr

/-- Result object of "ensureTodayTallyRow": the row together with the
current count and notes read from it. -/
structure EnsureResult where
  row : TallyRow
  currentCount : Nat
  currentNotes : List Char
deriving DecidableEq, Repr

/-- Model of "ensureTodayTallyRow" (server.js lines 1997-2048): when
today's row exists it is returned together with its count (column B) and
its notes read through "safeStr" (column C); otherwise a fresh row with
zero count, empty notes and the customer id in column D is appended and
returned.  The state is the optional existing row for today. -/
def ensureTodayTallyRow (row0 : Option TallyRow) (today customerId : List Char) :
    EnsureResult :=
  match row0 with
  | some r => ⟨r, r.countB, safeStrL r.notesC⟩
  | none => ⟨⟨today, 0, [], customerId, [], [], [], none⟩, 0, []⟩

/-- The note cleanup at the start of "tallyApply" (lines 2122-2127): strip
"r2:" parts, split, trim, drop empties, drop the "inbound-file:NON_RESUME"
marker, and re-join. -/
def cleanedNotesOf (currentNotes : List Char) : List Char :=
  joinCsv ((((stripR2FromNotes currentNotes).splitOn ',').map trimChars).filter
    (fun s => s ≠ [] ∧ s ≠ "inbound-file:NON_RESUME".data))

/-- The "=HYPERLINK(...)" cell content written to column F (lines
2194-2200): the formula when the public URL is non-empty, the empty
string otherwise (the source falls back from the empty formula string to
the empty URL). -/
def hyperlinkCell (url : List Char) : List Char :=
  if url = [] then []
  else "=HYPERLINK(\"".data ++ url ++ "\",\"resume file\")".data

/-- Return object of "tallyApply". -/
structure TallyReturn where
  today : List Char
  nextCount : Nat
  nextNotes : List Char
  shouldIncrement : Bool
deriving DecidableEq, Repr

/-- The token merge written back to column G by "tallyApply" (lines
2203-2232): the existing trimmed csv parts, extended in order with the
document token and the "r2:" key token when not yet present. -/
def mergeTokensG (tokensG docToken r2Key : List Char) : List Char :=
  let currentG := safeStrL tokensG
  let tokens := if currentG = [] then [] else splitCsvTrim currentG
  let wanted := (if docToken ≠ [] then [docToken] else []) ++
    (if r2Key ≠ [] then ["r2:".data ++ r2Key] else [])
  joinCsv (wanted.foldl (fun ts w => if w ∈ ts then ts else ts ++ [w]) tokens)

/-- Model of "tallyApply" (server.js lines 2108-2246).  The parameters
"r2Key" and "docToken" use the empty list for a falsy (absent) argument;
"aiScore" is the finite numeric score of the AI result when there is one;
"buildUrl" stands for "buildR2PublicUrl" (a pure function of
configuration); "gReadFails" models the read of the token-set cell during
the duplicate check throwing, which the source catches and ignores.  The
result is the updated row, the returned object, and the ordered list of
cell writes performed. -/
def tallyApply (row0 : Option TallyRow) (today customerId : List Char)
    (docType : DocType) (source : List Char) (r2Key docToken : List Char)
    (aiScore : Option Int) (buildUrl : List Char → List Char)
    (gReadFails : Bool) : TallyRow × TallyReturn × List (Col × CellVal) :=
  let ens := ensureTodayTallyRow row0 today customerId
  let row := ens.row
  let currentCount := ens.currentCount
  let cleanedNotes := cleanedNotesOf ens.currentNotes
  let note := source ++ (if docType = .RESUME then ":RESUME".data else ":NON_RESUME".data)
  let nextNotes := appendNote cleanedNotes note
  -- idempotency: when the token is already recorded today the source
  -- returns before any write; a throwing read is caught and ignored
  if docType = .RESUME ∧ docToken ≠ [] ∧ gReadFails = false ∧
      gHasToken row.tokensG docToken = true then
    (row, ⟨today, currentCount, nextNotes, false⟩, [])
  else
    let shouldIncrement := docType = .RESUME
    let nextCount := if shouldIncrement then currentCount + 1 else currentCount
    let row1 := { row with countB := nextCount, notesC := nextNotes, custD := customerId }
    let writesBCD : List (Col × CellVal) :=
      [(.B, .num nextCount), (.C, .str nextNotes), (.D, .str customerId)]
    if docType = .RESUME ∧ r2Key ≠ [] then
      let url := buildUrl r2Key
      let fileCell := hyperlinkCell url
      let nextG := mergeTokensG row.tokensG docToken r2Key
      let row2 := { row1 with r2E := r2Key, fileF := fileCell, tokensG := nextG }
      match aiScore with
      | some s =>
        ({ row2 with scoreH := some s },
          ⟨today, nextCount, nextNotes, shouldIncrement⟩,
          writesBCD ++ [(.E, .str r2Key), (.F, .str fileCell), (.G, .str nextG),
            (.H, .int s)])
      | none =>
        (row2, ⟨today, nextCount, nextNotes, shouldIncrement⟩,
          writesBCD ++ [(.E, .str r2Key), (.F, .str fileCell), (.G, .str nextG)])
    else
      (row1, ⟨today, nextCount, nextNotes, shouldIncrement⟩, writesBCD)

/-- Default of the extracted-character cap (server.js line 1248). -/
def MAX_EXTRACTED_CHARS : Nat := 120000

/-- Default of the cap on characters sent to the scorer (server.js line
1249). -/
def MAX_OPENAI_CHARS : Nat := 60000

/-- The value held by the local variable "ai" of "processInboundDoc": a
null, a tagged skip, a structured scorer result (whose score may be
missing or non-numeric, hence optional), or an error object (either
returned by the scorer or produced by the surrounding catch). -/
inductive AiVal where
  | nullVal
  | skipped (reason : List Char)
  | scored (score : Option Int) (summary : List Char)
      (strengths weaknesses : List (List Char))
  | err (msg : List Char)
deriving DecidableEq, Repr

/-- The finite numeric score of an AI value, modelling the source idiom
"Number.isFinite(Number(ai?.score))" guarding the column-H write. -/
def aiScoreOf : AiVal → Option Int
  | .scored (some s) _ _ _ => some s
  | _ => none

/-- Truthiness of the "skipped" field of the AI value. -/
def aiSkippedFlag : AiVal → Bool
  | .skipped _ => true
  | _ => false

/-- Truthiness of the "error" field of the AI value. -/
def aiErrFlag : AiVal → Bool
  | .err _ => true
  | _ => false

/-- The AI idempotency pre-check of "processInboundDoc" (lines 2411-2440):
when the sheet id, customer id and token are all non-empty, today's row is
ensured and its token-set cell is read; a throwing check (modelled by
"gFails") is caught and degrades to "not processed today".  Returns the
flag together with the possibly-updated row state. -/
def aiAlreadyProcessedToday (gFails : Bool) (tallySheetId customerId docToken : List Char)
    (row0 : Option TallyRow) (today : List Char) : Bool × Option TallyRow :=
  if gFails then (false, row0)
  else if tallySheetId ≠ [] ∧ customerId ≠ [] ∧ docToken ≠ [] then
    let ens := ensureTodayTallyRow row0 today customerId
    (gHasToken ens.row.tokensG docToken, some ens.row)
  else (false, row0)

/-- The AI scoring block of "processInboundDoc" (server.js lines
2397-2459), with the gates evaluated in source order: billing block, the
resume-and-substantive-text gate (trimmed length above 40), the hard
too-large skip, the daily idempotency check, the minimum-length gate at
120 characters, and finally the upstream call on the text truncated to
MAX_OPENAI_CHARS.  Returns the AI value, the text sent upstream (none
when no call is made), and the row state after the pre-check. -/
def aiPhase (blocked : Bool) (docType : DocType) (extractedText : List Char)
    (extractedTooLarge : Bool) (tallySheetId customerId docToken : List Char)
    (row0 : Option TallyRow) (today : List Char) (gReadFailsAiCheck : Bool)
    (scorerThrows : Bool) (scorerResult : AiVal) :
    AiVal × Option (List Char) × Option TallyRow :=
  if blocked then (.skipped "billing_block".data, none, row0)
  else if docType = .RESUME ∧ 40 < (trimChars extractedText).length then
    if extractedTooLarge then (.skipped "too_large".data, none, row0)
    else
      let chk := aiAlreadyProcessedToday gReadFailsAiCheck tallySheetId customerId
        docToken row0 today
      if extractedText ≠ [] ∧ 120 ≤ extractedText.length then
        if chk.1 then (.skipped "idempotent_skip".data, none, chk.2)
        else
          let forAi := extractedText.take MAX_OPENAI_CHARS
          if scorerThrows then (.err "ai_failed".data, some forAi, chk.2)
          else (scorerResult, some forAi, chk.2)
      else (.skipped "too_short".data, none, chk.2)
  else
    (.skipped (if docType ≠ .RESUME then "non_resume".data else "too_short".data),
      none, row0)

/-- The value held by the local variable "tallyResult" of
"processInboundDoc" (lines 2464-2496). -/
inductive TallyOutcome where
  | nullVal
  | skippedBilling (billingStatus : List Char) (blockedReason : Option (List Char))
  | skippedIdem (today : List Char)
  | applied (r : TallyReturn)
  | failed
deriving DecidableEq, Repr

/-- The strict increment test of the e-mail gate (line 2521): the source
compares "tallyResult?.shouldIncrement === true", which only an applied
tally result with a true flag satisfies (the idempotent-skip object
carries an explicit false, the other shapes have no such field). -/
def didIncrement : TallyOutcome → Bool
  | .applied r => r.shouldIncrement
  | _ => false

/-- Kind of customer message attempted by the dispatcher. -/
inductive EmailKind where
  | receipt
  | scoredResult
deriving DecidableEq, Repr

/-- One row of the customer directory, restricted to the fields this
pipeline reads. -/
structure CustomerRow where
  customerId : List Char
  intakeEmail : List Char
  status : List Char
  tallySheetId : List Char
deriving DecidableEq, Repr

/-- Arguments of "processInboundDoc" (lines 2337-2347); the empty list in
"toEmail" and "r2Key" models an absent argument. -/
structure PipelineArgs where
  source : List Char
  filename : List Char
  buffer : List Nat
  extractedTextArg : Option (List Char)
  docTypeArg : Option DocType
  toEmail : List Char
  r2Key : List Char
deriving DecidableEq, Repr

/-- External environment of one pipeline run: the directory, the state of
today's ledger row, failure flags for each caught external call, the
scorer's reply, and the pure external functions (content hash, public URL
builder, byte decoder, document parsers). -/
structure PipelineEnv where
  customers : List CustomerRow
  resolveFails : Bool
  row0 : Option TallyRow
  gReadFailsAiCheck : Bool
  gReadFailsTally : Bool
  tallyThrows : Bool
  scorerThrows : Bool
  scorerResult : AiVal
  emailFails : Bool
  hashOf : List Nat → List Char
  buildUrl : List Char → List Char
  decodeBytes : List Nat → List Char
  pdfOutcome : Except Unit (List Char)
  docxOutcome : Except Unit (List Char)
  today : List Char

/-- The object returned by "processInboundDoc" (lines 2689-2711). -/
structure InboundDocResult where
  ok : Bool
  source : List Char
  r2Key : List Char
  toEmail : List Char
  customerId : List Char
  resolvedCustomerId : List Char
  docType : DocType
  textPreview : List Char
  billingStatus : List Char
  blocked : Bool
  blockedReason : Option (List Char)
  tally : TallyOutcome
  ai : AiVal
  matchFound : Bool
deriving DecidableEq, Repr

/-- The audit record handed to "saveInboundDocToDb" (lines 2501-2517);
the save itself swallows every database error, so the record is always
produced. -/
structure AuditRecord where
  source : List Char
  toEmail : List Char
  customerId : List Char
  matchFound : Bool
  billingStatus : List Char
  blockedReason : Option (List Char)
  docType : DocType
  extractedChars : Nat
  textPreview : List Char
  aiScore : Option Int
  ai : AiVal
deriving DecidableEq, Repr

/-- Externally visible effects of one pipeline run. -/
structure PipelineTrace where
  extractedText : List Char
  rowFinal : Option TallyRow
  tallyWrites : List (Col × CellVal)
  aiTextSent : Option (List Char)
  audit : AuditRecord
  emailAttempts : List EmailKind
  emailDelivered : Bool
deriving Repr

/-- The tally block of "processInboundDoc" (lines 2464-2496), evaluated
after the AI block: a billing block or a daily duplicate skips every
sheet write; otherwise, when both the sheet id and customer id are
present, "tallyApply" runs (a throwing run is caught and tagged as a
failure); otherwise the tally result stays null. -/
def tallyStep (blocked : Bool) (ai : AiVal) (billingStatus : List Char)
    (blockedReason : Option (List Char)) (tallySheetId customerId : List Char)
    (row1 : Option TallyRow) (today source r2Key docToken : List Char)
    (docType : DocType) (buildUrl : List Char → List Char)
    (gReadFailsTally tallyThrows : Bool) :
    TallyOutcome × Option TallyRow × List (Col × CellVal) :=
  if blocked then (.skippedBilling billingStatus blockedReason, row1, [])
  else if ai = .skipped "idempotent_skip".data then (.skippedIdem today, row1, [])
  else if tallySheetId ≠ [] ∧ customerId ≠ [] then
    if tallyThrows then (.failed, row1, [])
    else
      let t := tallyApply row1 today customerId docType source r2Key docToken
        (aiScoreOf ai) buildUrl gReadFailsTally
      (.applied t.2.1, some t.1, t.2.2)
  else (.nullVal, row1, [])

/-- The result e-mail decision of "processInboundDoc" (lines 2519-2687):
nothing is attempted without a confirmed increment; given one, a scored
message goes out when the AI ran to completion, otherwise a receipt (the
receipt-on-skip toggle of line 2566 is hard-coded to true); at most one
message is ever attempted. -/
def emailStep (didInc : Bool) (toEmail : List Char) (matchFound blocked : Bool)
    (docType : DocType) (ai : AiVal) : List EmailKind :=
  if !didInc then []
  else
    let scoredEligible := toEmail ≠ [] && matchFound && !blocked &&
      decide (docType = .RESUME) && !(aiSkippedFlag ai) && !(aiErrFlag ai)
    let receiptEligible := toEmail ≠ [] && matchFound && !blocked &&
      decide (docType = .RESUME)
    if !scoredEligible && !receiptEligible then []
    else [if scoredEligible then .scoredResult else .receipt]

/-- Model of "processInboundDoc" (server.js lines 2337-2711): extraction
and capping, classification, customer resolution and billing gate, the AI
scoring block, the tally block, the unconditional audit record, and the
strictly gated result e-mail whose dispatch failure is swallowed. -/
def processInboundDoc (args : PipelineArgs) (env : PipelineEnv) :
    InboundDocResult × PipelineTrace :=
  let extractedTextRaw := match args.extractedTextArg with
    | some t => t
    | none => extractTextFromBuffer args.filename args.buffer env.decodeBytes
        env.pdfOutcome env.docxOutcome
  let extractedTooLarge := decide (MAX_EXTRACTED_CHARS < extractedTextRaw.length)
  let extractedText := if extractedTooLarge then extractedTextRaw.take MAX_EXTRACTED_CHARS
    else extractedTextRaw
  let docType := match args.docTypeArg with
    | some d => d
    | none => if 0 < (trimChars extractedText).length
        then classifyDocTypeFromText extractedText else .NON_RESUME
  let toEmail := jsToLower (trimChars (safeStrL args.toEmail))
  let matchC : Option CustomerRow :=
    if toEmail ≠ [] ∧ env.resolveFails = false then
      (env.customers.reverse).find?
        (fun x => jsToLower (trimChars (safeStrL x.intakeEmail)) == toEmail)
    else none
  let customerId := match matchC with
    | some m => safeStrL m.customerId
    | none => []
  let billingStatus := match matchC with
    | some m => safeStrL m.status
    | none => []
  let gate := isProcessingAllowed billingStatus
  let blocked := decide (customerId ≠ [] ∧ gate.allowed = false)
  let blockedReason := if blocked then some ((gate.reason).getD "billing_block".data)
    else none
  let tallySheetId := match matchC with
    | some m => safeStrL m.tallySheetId
    | none => []
  let docToken := "hash:".data ++ env.hashOf args.buffer
  let aiR := aiPhase blocked docType extractedText extractedTooLarge tallySheetId
    customerId docToken env.row0 env.today env.gReadFailsAiCheck env.scorerThrows
    env.scorerResult
  let ai := aiR.1
  let aiTextSent := aiR.2.1
  let row1 := aiR.2.2
  -- the tally block; "tallyThrows" models a failure on the ensure-read of
  -- "tallyApply", before its first write (partial-write states of a
  -- mid-sequence failure are outside the claims and not modelled)
  let tallyT := tallyStep blocked ai billingStatus blockedReason tallySheetId
    customerId row1 env.today args.source args.r2Key docToken docType env.buildUrl
    env.gReadFailsTally env.tallyThrows
  let tallyRes := tallyT.1
  let rowFinal := tallyT.2.1
  let tallyWrites := tallyT.2.2
  let textPreview := extractedText.take 400
  let audit : AuditRecord :=
    { source := args.source, toEmail := toEmail, customerId := customerId,
      matchFound := matchC.isSome, billingStatus := billingStatus,
      blockedReason := blockedReason, docType := docType,
      extractedChars := extractedText.length, textPreview := textPreview,
      aiScore := aiScoreOf ai, ai := ai }
  -- result e-mail, hard-gated on a confirmed increment; at most one
  -- attempt, and a dispatch failure is swallowed by the source
  let emailAttempts := emailStep (didIncrement tallyRes) toEmail matchC.isSome
    blocked docType ai
  let emailDelivered := emailAttempts ≠ [] && !env.emailFails
  ({ ok := true, source := args.source, r2Key := args.r2Key, toEmail := toEmail,
     customerId := customerId, resolvedCustomerId := customerId, docType := docType,
     textPreview := textPreview, billingStatus := billingStatus, blocked := blocked,
     blockedReason := blockedReason, tally := tallyRes, ai := ai,
     matchFound := matchC.isSome },
   { extractedText := extractedText, rowFinal := rowFinal, tallyWrites := tallyWrites,
     aiTextSent := aiTextSent, audit := audit, emailAttempts := emailAttempts,
     emailDelivered := emailDelivered })

/-! Helper lemmas. -/

theorem toNat_ofNat_isValid {n : Nat} (h : n.isValidChar) :
    (Char.ofNat n).toNat = n := by
  simp only [Char.ofNat, dif_pos h, Char.ofNatAux, Char.toNat, UInt32.toNat]
  simp [BitVec.toNat_ofNatLt]

theorem toLower_toLower (c : Char) : c.toLower.toLower = c.toLower := by
  unfold Char.toLower
  by_cases h : c.toNat ≥ 65 ∧ c.toNat ≤ 90
  · rw [if_pos h]
    have hv : (c.toNat + 32).isValidChar := by
      left
      omega
    rw [toNat_ofNat_isValid hv]
    rw [if_neg (by omega)]
  · rw [if_neg h, if_neg h]

theorem jsToLower_idem (l : List Char) : jsToLower (jsToLower l) = jsToLower l := by
  unfold jsToLower
  rw [List.map_map]
  exact List.map_congr_left (fun a _ => toLower_toLower a)

/-- The return object of a non-duplicate run of "tallyApply": the count
advances exactly when the document is a RESUME, and the increment flag
matches. -/
theorem tallyApply_ret_of_not_dup (row0 : Option TallyRow)
    (today customerId source r2Key docToken : List Char) (docType : DocType)
    (aiScore : Option Int) (buildUrl : List Char → List Char) (gReadFails : Bool)
    (h : ¬(docType = .RESUME ∧ docToken ≠ [] ∧ gReadFails = false ∧
      gHasToken (ensureTodayTallyRow row0 today customerId).row.tokensG docToken
        = true)) :
    (tallyApply row0 today customerId docType source r2Key docToken aiScore
        buildUrl gReadFails).2.1 =
      ⟨today,
        if docType = .RESUME
          then (ensureTodayTallyRow row0 today customerId).currentCount + 1
          else (ensureTodayTallyRow row0 today customerId).currentCount,
        appendNote (cleanedNotesOf (ensureTodayTallyRow row0 today customerId).currentNotes)
          (source ++ (if docType = .RESUME then ":RESUME".data else ":NON_RESUME".data)),
        decide (docType = .RESUME)⟩ := by
  unfold tallyApply
  rw [if_neg h]
  by_cases h2 : docType = .RESUME ∧ r2Key ≠ []
  · rw [if_pos h2]
    cases aiScore <;> simp
  · rw [if_neg h2]

/-- C9: for every NON_RESUME document reaching tallyApply, the day row is
still ensured and a source-tagged note is appended, but the count value
is never incremented (the written count equals the count that was read)
and the pointer cell (E), file-link cell (F), token-set cell (G) and
last-score cell (H) are not written: the only writes are the count cell
(with the unchanged count), the notes cell and the customer-id cell, and
the E/F/G/H fields of the row keep the values of the ensured row. -/
theorem non_resume_tally_frame (row0 : Option TallyRow)
    (today customerId source r2Key docToken : List Char) (aiScore : Option Int)
    (buildUrl : List Char → List Char) (gReadFails : Bool) :
    tallyApply row0 today customerId .NON_RESUME source r2Key docToken aiScore
        buildUrl gReadFails =
      ({ (ensureTodayTallyRow row0 today customerId).row with
          countB := (ensureTodayTallyRow row0 today customerId).currentCount,
          notesC := appendNote
            (cleanedNotesOf (ensureTodayTallyRow row0 today customerId).currentNotes)
            (source ++ ":NON_RESUME".data),
          custD := customerId },
        ⟨today, (ensureTodayTallyRow row0 today customerId).currentCount,
          appendNote
            (cleanedNotesOf (ensureTodayTallyRow row0 today customerId).currentNotes)
            (source ++ ":NON_RESUME".data), false⟩,
        [(.B, .num (ensureTodayTallyRow row0 today customerId).currentCount),
         (.C, .str (appendNote
           (cleanedNotesOf (ensureTodayTallyRow row0 today customerId).currentNotes)
           (source ++ ":NON_RESUME".data))),
         (.D, .str customerId)]) := by
  unfold tallyApply
  simp

/-- C6: if reading the token-set cell during the duplicate check fails
(the read throws), the pipeline proceeds as if the document is not a
duplicate: tallyApply still applies a real increment (the increment flag
stays true and the written count is the read count plus one), and the AI
idempotency pre-check treats the document as not already processed
today. -/
theorem token_read_failure_degrades_open :
    (∀ (row0 : Option TallyRow) (today customerId source r2Key docToken : List Char)
      (aiScore : Option Int) (buildUrl : List Char → List Char),
      (tallyApply row0 today customerId .RESUME source r2Key docToken aiScore
          buildUrl true).2.1.shouldIncrement = true ∧
      (tallyApply row0 today customerId .RESUME source r2Key docToken aiScore
          buildUrl true).2.1.nextCount =
        (ensureTodayTallyRow row0 today customerId).currentCount + 1) ∧
    (∀ (tallySheetId customerId docToken : List Char) (row0 : Option TallyRow)
      (today : List Char),
      (aiAlreadyProcessedToday true tallySheetId customerId docToken row0 today).1
        = false) := by
  constructor
  · intro row0 today customerId source r2Key docToken aiScore buildUrl
    rw [tallyApply_ret_of_not_dup row0 today customerId source r2Key docToken
      .RESUME aiScore buildUrl true (by simp)]
    simp
  · intro tallySheetId customerId docToken row0 today
    unfold aiAlreadyProcessedToday
    simp

/-- The e-mail step of the pipeline attempts nothing without a confirmed
increment. -/
theorem emailStep_nil_of_not_inc (toEmail : List Char) (mf b : Bool) (d : DocType)
    (ai : AiVal) : emailStep false toEmail mf b d ai = [] := by
  unfold emailStep
  simp

/-- The e-mail step attempts at most one message. -/
theorem emailStep_length_le_one (di : Bool) (toEmail : List Char) (mf b : Bool)
    (d : DocType) (ai : AiVal) : (emailStep di toEmail mf b d ai).length ≤ 1 := by
  unfold emailStep
  split
  · simp
  · dsimp only
    split <;> simp

/-- The AI phase never replaces an existing day row: the row state it
returns is the row it was given. -/
theorem aiPhase_row_some (blocked : Bool) (docType : DocType) (text : List Char)
    (tooLarge : Bool) (sid cid tok : List Char) (row : TallyRow) (today : List Char)
    (gf st : Bool) (sr : AiVal) :
    (aiPhase blocked docType text tooLarge sid cid tok (some row) today gf st sr).2.2
      = some row := by
  unfold aiPhase aiAlreadyProcessedToday ensureTodayTallyRow
  (repeat' split) <;> (try subst_vars) <;> (try simp_all) <;> (try (split <;> rfl))

/-- A duplicate-token run of "tallyApply" returns before any write: the
row is unchanged, the returned count is the read count, the increment
flag is false and the write list is empty. -/
theorem tallyApply_dup (row0 : Option TallyRow)
    (today customerId source r2Key docToken : List Char) (aiScore : Option Int)
    (buildUrl : List Char → List Char) (ht : docToken ≠ [])
    (hg : gHasToken (ensureTodayTallyRow row0 today customerId).row.tokensG docToken
      = true) :
    tallyApply row0 today customerId .RESUME source r2Key docToken aiScore buildUrl
        false =
      ((ensureTodayTallyRow row0 today customerId).row,
       ⟨today, (ensureTodayTallyRow row0 today customerId).currentCount,
         appendNote
           (cleanedNotesOf (ensureTodayTallyRow row0 today customerId).currentNotes)
           (source ++ ":RESUME".data), false⟩, []) := by
  unfold tallyApply
  rw [if_pos ⟨rfl, ht, rfl, hg⟩]
  simp

/-- Whatever path the tally block takes for a RESUME document whose token
is already in today's token set (and whose duplicate-check read
succeeds), it changes nothing: the row state is returned unchanged, no
cell is written, and no confirmed increment is reported. -/
theorem tallyStep_dup (blocked : Bool) (ai : AiVal) (bs : List Char)
    (br : Option (List Char)) (sid cid : List Char) (row : TallyRow)
    (today source r2Key docToken : List Char) (buildUrl : List Char → List Char)
    (tallyThrows : Bool) (ht : docToken ≠ [])
    (hg : gHasToken row.tokensG docToken = true) :
    (tallyStep blocked ai bs br sid cid (some row) today source r2Key docToken
        .RESUME buildUrl false tallyThrows).2.1 = some row ∧
    (tallyStep blocked ai bs br sid cid (some row) today source r2Key docToken
        .RESUME buildUrl false tallyThrows).2.2 = [] ∧
    didIncrement (tallyStep blocked ai bs br sid cid (some row) today source r2Key
        docToken .RESUME buildUrl false tallyThrows).1 = false := by
  unfold tallyStep
  split
  · exact ⟨rfl, rfl, rfl⟩
  · split
    · exact ⟨rfl, rfl, rfl⟩
    · split
      · split
        · exact ⟨rfl, rfl, rfl⟩
        · have hd := tallyApply_dup (some row) today cid source r2Key docToken
            (aiScoreOf ai) buildUrl ht hg
          rw [hd]
          exact ⟨rfl, rfl, rfl⟩
      · exact ⟨rfl, rfl, rfl⟩

/-- C1: for every document whose content-hash idempotency token is
already present in the day row's token set (column G) for the same tenant
and the same tenant-local day, a second submission produces no ledger
count change and no customer notification: tallyApply returns the
unchanged count with the increment flag false and performs no further
cell writes, and processInboundDoc sends no email because no confirmed
increment is reported. -/
theorem duplicate_token_second_submission_idempotent :
    (∀ (row0 : Option TallyRow) (today customerId source r2Key docToken : List Char)
      (aiScore : Option Int) (buildUrl : List Char → List Char),
      docToken ≠ [] →
      gHasToken (ensureTodayTallyRow row0 today customerId).row.tokensG docToken
        = true →
      tallyApply row0 today customerId .RESUME source r2Key docToken aiScore
          buildUrl false =
        ((ensureTodayTallyRow row0 today customerId).row,
         ⟨today, (ensureTodayTallyRow row0 today customerId).currentCount,
           appendNote
             (cleanedNotesOf (ensureTodayTallyRow row0 today customerId).currentNotes)
             (source ++ ":RESUME".data), false⟩, [])) ∧
    (∀ (args : PipelineArgs) (env : PipelineEnv) (row : TallyRow),
      env.row0 = some row →
      env.gReadFailsTally = false →
      gHasToken row.tokensG ("hash:".data ++ env.hashOf args.buffer) = true →
      (processInboundDoc args env).1.docType = .RESUME →
      (processInboundDoc args env).2.rowFinal = some row ∧
      (processInboundDoc args env).2.tallyWrites = [] ∧
      didIncrement (processInboundDoc args env).1.tally = false ∧
      (processInboundDoc args env).2.emailAttempts = []) := by
  constructor
  · intro row0 today customerId source r2Key docToken aiScore buildUrl ht hg
    exact tallyApply_dup row0 today customerId source r2Key docToken aiScore
      buildUrl ht hg
  · intro args env row hrow hgrf htok hdt
    have ht : ("hash:".data ++ env.hashOf args.buffer) ≠ [] := by simp
    simp only [processInboundDoc] at hdt ⊢
    rw [hrow]
    rw [aiPhase_row_some]
    rw [hgrf]
    rw [hdt]
    have key := fun (b : Bool) (ai : AiVal) (bs : List Char) (br : Option (List Char))
        (sid cid : List Char) (tt : Bool) =>
      tallyStep_dup b ai bs br sid cid row env.today args.source args.r2Key
        ("hash:".data ++ env.hashOf args.buffer) env.buildUrl tt ht htok
    have k1 := fun b ai bs br sid cid tt => (key b ai bs br sid cid tt).1
    have k2 := fun b ai bs br sid cid tt => (key b ai bs br sid cid tt).2.1
    have k3 := fun b ai bs br sid cid tt => (key b ai bs br sid cid tt).2.2
    rw [k1, k2, k3]
    exact ⟨rfl, rfl, rfl, emailStep_nil_of_not_inc _ _ _ _ _⟩

/-- Witness for C1: a concrete second submission whose token is already
in the token-set cell leaves the row, the count and the write list
untouched. -/
theorem duplicate_token_second_submission_idempotent_witness :
    "hash:abc".data ≠ [] ∧
    gHasToken (ensureTodayTallyRow
        (some (⟨"d".data, 3, [], "c1".data, [], [], "hash:abc".data, none⟩ : TallyRow))
        "d".data "c1".data).row.tokensG "hash:abc".data = true ∧
    tallyApply
        (some (⟨"d".data, 3, [], "c1".data, [], [], "hash:abc".data, none⟩ : TallyRow))
        "d".data "c1".data .RESUME "mail".data "k".data "hash:abc".data none
        (fun _ => []) false =
      ((ensureTodayTallyRow
          (some (⟨"d".data, 3, [], "c1".data, [], [], "hash:abc".data, none⟩ : TallyRow))
          "d".data "c1".data).row,
       ⟨"d".data,
         (ensureTodayTallyRow
           (some (⟨"d".data, 3, [], "c1".data, [], [], "hash:abc".data, none⟩ : TallyRow))
           "d".data "c1".data).currentCount,
         appendNote
           (cleanedNotesOf (ensureTodayTallyRow
             (some (⟨"d".data, 3, [], "c1".data, [], [], "hash:abc".data, none⟩ : TallyRow))
             "d".data "c1".data).currentNotes)
           ("mail".data ++ ":RESUME".data), false⟩, []) :=
  ⟨by decide, by decide,
    duplicate_token_second_submission_idempotent.1
      (some (⟨"d".data, 3, [], "c1".data, [], [], "hash:abc".data, none⟩ : TallyRow))
      "d".data "c1".data "mail".data "k".data "hash:abc".data none (fun _ => [])
      (by decide) (by decide)⟩

/-- C2: a customer message (receipt or scored result) is attempted only
if the ledger engine reported a confirmed increment for this document;
no message is attempted on a duplicate skip, a billing block, or a ledger
failure; at most one message is ever attempted; and a dispatch failure is
caught and swallowed, so it never changes the pipeline's returned result
and the attempt list is the same whether or not dispatch fails (no
retry). -/
theorem email_strictly_gated_on_increment :
    (∀ (args : PipelineArgs) (env : PipelineEnv),
      didIncrement (processInboundDoc args env).1.tally = false →
      (processInboundDoc args env).2.emailAttempts = []) ∧
    (∀ (args : PipelineArgs) (env : PipelineEnv),
      (processInboundDoc args env).2.emailAttempts ≠ [] →
      didIncrement (processInboundDoc args env).1.tally = true) ∧
    (∀ (args : PipelineArgs) (env : PipelineEnv) (d : List Char),
      (processInboundDoc args env).1.tally = .skippedIdem d →
      (processInboundDoc args env).2.emailAttempts = []) ∧
    (∀ (args : PipelineArgs) (env : PipelineEnv) (bs : List Char)
      (br : Option (List Char)),
      (processInboundDoc args env).1.tally = .skippedBilling bs br →
      (processInboundDoc args env).2.emailAttempts = []) ∧
    (∀ (args : PipelineArgs) (env : PipelineEnv),
      (processInboundDoc args env).1.tally = .failed →
      (processInboundDoc args env).2.emailAttempts = []) ∧
    (∀ (args : PipelineArgs) (env : PipelineEnv),
      (processInboundDoc args env).2.emailAttempts.length ≤ 1) ∧
    (∀ (args : PipelineArgs) (env : PipelineEnv) (b : Bool),
      (processInboundDoc args { env with emailFails := b }).1 =
        (processInboundDoc args env).1 ∧
      (processInboundDoc args { env with emailFails := b }).2.emailAttempts =
        (processInboundDoc args env).2.emailAttempts) := by
  have gate : ∀ (args : PipelineArgs) (env : PipelineEnv),
      didIncrement (processInboundDoc args env).1.tally = false →
      (processInboundDoc args env).2.emailAttempts = [] := by
    intro args env h
    simp only [processInboundDoc] at h ⊢
    rw [h]
    exact emailStep_nil_of_not_inc _ _ _ _ _
  refine ⟨gate, ?_, ?_, ?_, ?_, ?_, ?_⟩
  · intro args env h
    cases hdi : didIncrement (processInboundDoc args env).1.tally
    · exact absurd (gate args env hdi) h
    · rfl
  · intro args env d h
    exact gate args env (by rw [h]; rfl)
  · intro args env bs br h
    exact gate args env (by rw [h]; rfl)
  · intro args env h
    exact gate args env (by rw [h]; rfl)
  · intro args env
    simp only [processInboundDoc]
    exact emailStep_length_le_one _ _ _ _ _ _
  · intro args env b
    exact ⟨rfl, rfl⟩

/-- Witness for C2: a concrete run with no resolved customer reports no
increment, and no message is attempted. -/
theorem email_strictly_gated_on_increment_witness :
    didIncrement (processInboundDoc
        ⟨"mail".data, "f.txt".data, [], some [], some .RESUME, [], []⟩
        { customers := [], resolveFails := false, row0 := none,
          gReadFailsAiCheck := false, gReadFailsTally := false,
          tallyThrows := false, scorerThrows := false, scorerResult := .nullVal,
          emailFails := false, hashOf := fun _ => "h".data,
          buildUrl := fun _ => [], decodeBytes := fun _ => [],
          pdfOutcome := .ok [], docxOutcome := .ok [],
          today := "d".data }).1.tally = false ∧
    (processInboundDoc
        ⟨"mail".data, "f.txt".data, [], some [], some .RESUME, [], []⟩
        { customers := [], resolveFails := false, row0 := none,
          gReadFailsAiCheck := false, gReadFailsTally := false,
          tallyThrows := false, scorerThrows := false, scorerResult := .nullVal,
          emailFails := false, hashOf := fun _ => "h".data,
          buildUrl := fun _ => [], decodeBytes := fun _ => [],
          pdfOutcome := .ok [], docxOutcome := .ok [],
          today := "d".data }).2.emailAttempts = [] :=
  ⟨by decide, email_strictly_gated_on_increment.1 _ _ (by decide)⟩

/-- The trim is the right-drop of the left-drop. -/
theorem trimChars_eq_rdrop (l : List Char) :
    trimChars l = List.rdropWhile isJsWs (List.dropWhile isJsWs l) := rfl

/-- A trimmed list has no leading whitespace left. -/
theorem dropWhile_trimChars (l : List Char) :
    List.dropWhile isJsWs (trimChars l) = trimChars l := by
  rw [trimChars_eq_rdrop]
  rw [List.dropWhile_eq_self_iff]
  intro hl
  have hpre := List.rdropWhile_prefix isJsWs (List.dropWhile isJsWs l)
  have hlt : 0 < (List.dropWhile isJsWs l).length := lt_of_lt_of_le hl hpre.length_le
  have h0 : (List.rdropWhile isJsWs (List.dropWhile isJsWs l)).get ⟨0, hl⟩ =
      (List.dropWhile isJsWs l).get ⟨0, hlt⟩ := by
    simp only [List.get_eq_getElem]
    exact hpre.getElem hl
  rw [h0]
  exact List.dropWhile_get_zero_not isJsWs l hlt

/-- The JavaScript trim is idempotent. -/
theorem trimChars_idem (l : List Char) : trimChars (trimChars l) = trimChars l := by
  rw [trimChars_eq_rdrop (trimChars l), dropWhile_trimChars, trimChars_eq_rdrop l]
  exact List.rdropWhile_idempotent isJsWs (List.dropWhile isJsWs l)

/-- The safeStr helper is idempotent. -/
theorem safeStrL_idem (l : List Char) : safeStrL (safeStrL l) = safeStrL l :=
  trimChars_idem l

/-- A trimmed billing status in the four blocked states is refused by the
billing gate. -/
theorem isProcessingAllowed_blocked (bs : List Char) (hidem : safeStrL bs = bs)
    (h : jsToLower bs ∈ ["trial_ended".data, "past_due".data, "canceled".data,
      "unpaid".data]) : (isProcessingAllowed bs).allowed = false := by
  simp only [List.mem_cons, List.not_mem_nil, or_false] at h
  unfold isProcessingAllowed
  rw [hidem]
  rcases h with h | h | h | h <;> rw [h] <;> decide

/-- A billing block short-circuits the whole AI phase. -/
theorem aiPhase_blocked (docType : DocType) (text : List Char) (tl : Bool)
    (sid cid tok : List Char) (row0 : Option TallyRow) (today : List Char)
    (gf st : Bool) (sr : AiVal) :
    aiPhase true docType text tl sid cid tok row0 today gf st sr =
      (.skipped "billing_block".data, none, row0) := by
  unfold aiPhase
  rfl

/-- A billing block short-circuits the whole tally block. -/
theorem tallyStep_blocked (ai : AiVal) (bs : List Char) (br : Option (List Char))
    (sid cid : List Char) (row1 : Option TallyRow)
    (today source r2Key docToken : List Char) (docType : DocType)
    (buildUrl : List Char → List Char) (g t : Bool) :
    tallyStep true ai bs br sid cid row1 today source r2Key docToken docType
      buildUrl g t = (.skippedBilling bs br, row1, []) := by
  unfold tallyStep
  rfl

/-- C3: for every document whose resolved tenant has billing status in
trial_ended, past_due, canceled or unpaid (compared case-insensitively),
processInboundDoc makes no AI scoring call, performs no ledger increment
(the row state and write list are untouched), and sends no notification,
regardless of the document's category; the audit record is still written,
carrying the billing status and block reason. -/
theorem billing_blocked_no_ai_no_increment_no_email (args : PipelineArgs)
    (env : PipelineEnv)
    (hcid : (processInboundDoc args env).1.customerId ≠ [])
    (hst : jsToLower (processInboundDoc args env).1.billingStatus ∈
      ["trial_ended".data, "past_due".data, "canceled".data, "unpaid".data]) :
    (processInboundDoc args env).1.ai = .skipped "billing_block".data ∧
    (processInboundDoc args env).2.aiTextSent = none ∧
    (processInboundDoc args env).1.tally =
      .skippedBilling (processInboundDoc args env).1.billingStatus
        (processInboundDoc args env).1.blockedReason ∧
    (processInboundDoc args env).2.rowFinal = env.row0 ∧
    (processInboundDoc args env).2.tallyWrites = [] ∧
    (processInboundDoc args env).2.emailAttempts = [] ∧
    (processInboundDoc args env).2.audit.billingStatus =
      (processInboundDoc args env).1.billingStatus ∧
    (processInboundDoc args env).2.audit.blockedReason =
      (processInboundDoc args env).1.blockedReason := by
  simp only [processInboundDoc] at hcid hst ⊢
  rcases hm : (if jsToLower (trimChars (safeStrL args.toEmail)) ≠ [] ∧
      env.resolveFails = false then
      (env.customers.reverse).find?
        (fun x => jsToLower (trimChars (safeStrL x.intakeEmail)) ==
          jsToLower (trimChars (safeStrL args.toEmail)))
    else none) with _ | m
  · rw [hm] at hcid
    exact absurd rfl hcid
  · rw [hm] at hcid hst ⊢
    have hgate : (isProcessingAllowed (safeStrL m.status)).allowed = false :=
      isProcessingAllowed_blocked (safeStrL m.status) (safeStrL_idem m.status) hst
    have hb : decide (safeStrL m.customerId ≠ [] ∧
        (isProcessingAllowed (safeStrL m.status)).allowed = false) = true := by
      rw [decide_eq_true_eq]
      exact ⟨hcid, hgate⟩
    rw [hb]
    simp [aiPhase_blocked, tallyStep_blocked, didIncrement, emailStep_nil_of_not_inc]

/-- Witness for C3: a concrete past_due tenant is blocked and gets the
billing-block AI skip. -/
theorem billing_blocked_no_ai_no_increment_no_email_witness :
    (processInboundDoc
        ⟨"mail".data, "f.txt".data, [], some [], some .RESUME, "in".data, []⟩
        { customers := [⟨"c1".data, "in".data, "past_due".data, "s1".data⟩],
          resolveFails := false, row0 := none, gReadFailsAiCheck := false,
          gReadFailsTally := false, tallyThrows := false, scorerThrows := false,
          scorerResult := .nullVal, emailFails := false,
          hashOf := fun _ => "h".data, buildUrl := fun _ => [],
          decodeBytes := fun _ => [], pdfOutcome := .ok [], docxOutcome := .ok [],
          today := "d".data }).1.customerId ≠ [] ∧
    jsToLower (processInboundDoc
        ⟨"mail".data, "f.txt".data, [], some [], some .RESUME, "in".data, []⟩
        { customers := [⟨"c1".data, "in".data, "past_due".data, "s1".data⟩],
          resolveFails := false, row0 := none, gReadFailsAiCheck := false,
          gReadFailsTally := false, tallyThrows := false, scorerThrows := false,
          scorerResult := .nullVal, emailFails := false,
          hashOf := fun _ => "h".data, buildUrl := fun _ => [],
          decodeBytes := fun _ => [], pdfOutcome := .ok [], docxOutcome := .ok [],
          today := "d".data }).1.billingStatus ∈
      ["trial_ended".data, "past_due".data, "canceled".data, "unpaid".data] ∧
    (processInboundDoc
        ⟨"mail".data, "f.txt".data, [], some [], some .RESUME, "in".data, []⟩
        { customers := [⟨"c1".data, "in".data, "past_due".data, "s1".data⟩],
          resolveFails := false, row0 := none, gReadFailsAiCheck := false,
          gReadFailsTally := false, tallyThrows := false, scorerThrows := false,
          scorerResult := .nullVal, emailFails := false,
          hashOf := fun _ => "h".data, buildUrl := fun _ => [],
          decodeBytes := fun _ => [], pdfOutcome := .ok [], docxOutcome := .ok [],
          today := "d".data }).1.ai = .skipped "billing_block".data :=
  ⟨by decide, by decide,
    (billing_blocked_no_ai_no_increment_no_email _ _ (by decide) (by decide)).1⟩

/-- Spec-side count of alphabetic characters of the raw text (claim C4
measures the minimum-letters guard on the input text, either case). -/
def specAlphaCount (t : List Char) : Nat :=
  t.countP (fun c =>
    decide ((65 ≤ c.toNat ∧ c.toNat ≤ 90) ∨ (97 ≤ c.toNat ∧ c.toNat ≤ 122)))

/-- Spec-side resume score: strong indicators weighted three, weak
indicators weighted one, over the lower-cased text. -/
def specResumeScore (t : List Char) : Nat :=
  countAny (jsToLower t) resumeStrong * 3 + countAny (jsToLower t) resumeWeak

/-- Spec-side non-resume score: strong non-resume indicators weighted
three, over the lower-cased text. -/
def specNonResumeScore (t : List Char) : Nat :=
  countAny (jsToLower t) nonResumeStrong * 3

/-- The classifier decision rule exactly as the specification words it:
reject short texts, then the ordered rules (a) any strong resume
indicator present and non-resume score strictly below resume score, (b)
resume score at least three and non-resume score at most resume score,
(c) non-resume score at least three and strictly above resume score, (d)
the conservative default. -/
def classifySpec (t : List Char) : DocType :=
  if specAlphaCount t < 80 then .NON_RESUME
  else if (∃ k ∈ resumeStrong, k <:+: jsToLower t) ∧
      specNonResumeScore t < specResumeScore t then .RESUME
  else if 3 ≤ specResumeScore t ∧ specNonResumeScore t ≤ specResumeScore t
    then .RESUME
  else if 3 ≤ specNonResumeScore t ∧ specResumeScore t < specNonResumeScore t
    then .NON_RESUME
  else .NON_RESUME

/-- A character is a lower-case letter after the case mapping exactly
when it is a letter (either case) before it. -/
theorem toLower_lower_range_iff (c : Char) :
    (97 ≤ c.toLower.toNat ∧ c.toLower.toNat ≤ 122) ↔
    ((65 ≤ c.toNat ∧ c.toNat ≤ 90) ∨ (97 ≤ c.toNat ∧ c.toNat ≤ 122)) := by
  unfold Char.toLower
  by_cases h : c.toNat ≥ 65 ∧ c.toNat ≤ 90
  · rw [if_pos h, toNat_ofNat_isValid (by left; omega)]
    omega
  · rw [if_neg h]
    omega

/-- The letter count of the classifier equals the spec's alphabetic
count of the raw text. -/
theorem letters_eq_specAlphaCount (t : List Char) :
    (jsToLower t).countP (fun c => decide (97 ≤ c.toNat ∧ c.toNat ≤ 122)) =
      specAlphaCount t := by
  unfold specAlphaCount jsToLower
  rw [List.countP_map]
  refine List.countP_congr ?_
  intro c _
  simp only [Function.comp_apply, decide_eq_true_eq]
  exact toLower_lower_range_iff c

/-- The any-keyword test is existence of an occurring keyword. -/
theorem hasAny_iff (text : List Char) (keys : List (List Char)) :
    hasAny text keys = true ↔ ∃ k ∈ keys, k <:+: text := by
  unfold hasAny hasKw
  simp [List.any_eq_true]

/-- C4: the classifier returns NON_RESUME for any text with fewer than 80
alphabetic characters; otherwise it computes a resume score (strong
indicators weighted three plus weak indicators weighted one) and a
non-resume score (strong indicators weighted three) over the lower-cased
text and applies, in order: (a) any strong resume indicator present and
non-resume score strictly below resume score gives RESUME; (b) resume
score at least three and non-resume score at most resume score gives
RESUME; (c) non-resume score at least three and strictly above resume
score gives NON_RESUME; (d) otherwise NON_RESUME. -/
theorem classifier_matches_spec_decision_rule (t : List Char) :
    classifyDocTypeFromText t = classifySpec t := by
  unfold classifyDocTypeFromText classifyCore classifySpec
  rw [letters_eq_specAlphaCount]
  unfold specResumeScore specNonResumeScore
  simp only [hasAny_iff]

/-- C10: the classifier is case-insensitive: lower-casing is idempotent,
so classifying a lower-cased text gives the same category as classifying
the raw text (the classifier lower-cases its input before any keyword
matching). -/
theorem classifier_case_insensitive (t : List Char) :
    jsToLower (jsToLower t) = jsToLower t ∧
    classifyDocTypeFromText (jsToLower t) = classifyDocTypeFromText t := by
  refine ⟨jsToLower_idem t, ?_⟩
  unfold classifyDocTypeFromText
  rw [jsToLower_idem]

/-- Two distinct candidate suffixes exclude each other: a name ending in
one extension does not end in another, incomparable one. -/
theorem not_endsWith_of_endsWith (s a b : List Char) (h : endsWithStr s a = true)
    (h1 : ¬ a <:+ b) (h2 : ¬ b <:+ a) : endsWithStr s b = false := by
  unfold endsWithStr at h ⊢
  rw [List.isSuffixOf_iff_suffix] at h
  by_contra hc
  rw [Bool.not_eq_false, List.isSuffixOf_iff_suffix] at hc
  rcases List.suffix_or_suffix_of_suffix hc h with h3 | h3
  · exact h2 h3
  · exact h1 h3

/-- C7: extractTextFromBuffer is total (it is a function in this model,
defined for every filename, buffer, decoder and parser outcome) and
returns the empty string on any extraction failure: a throwing PDF parse
yields the empty string, a parsed PDF whose text fails the low
letter-density heuristic (fewer than five percent alphabetic characters
in the first 2000 characters) yields the empty string, and a throwing
DOCX parse yields the empty string. -/
theorem extract_total_and_fails_empty :
    (∀ (filename : List Char) (buf : List Nat) (decodeBytes : List Nat → List Char)
      (docxOutcome : Except Unit (List Char)),
      endsWithStr (jsToLower filename) ".pdf".data = true →
      extractTextFromBuffer filename buf decodeBytes (.error ()) docxOutcome = []) ∧
    (∀ (filename : List Char) (buf : List Nat) (decodeBytes : List Nat → List Char)
      (docxOutcome : Except Unit (List Char)) (parsedText : List Char),
      endsWithStr (jsToLower filename) ".pdf".data = true →
      looksGarbledText (safeStrL parsedText) = true →
      extractTextFromBuffer filename buf decodeBytes (.ok parsedText) docxOutcome
        = []) ∧
    (∀ (filename : List Char) (buf : List Nat) (decodeBytes : List Nat → List Char)
      (pdfOutcome : Except Unit (List Char)),
      endsWithStr (jsToLower filename) ".docx".data = true →
      extractTextFromBuffer filename buf decodeBytes pdfOutcome (.error ()) = []) := by
  refine ⟨?_, ?_, ?_⟩
  · intro filename buf dec docx h
    simp only [extractTextFromBuffer]
    rw [not_endsWith_of_endsWith _ ".pdf".data ".txt".data h (by decide) (by decide)]
    rw [h]
    simp
  · intro filename buf dec docx parsedText h hg
    simp only [extractTextFromBuffer]
    rw [not_endsWith_of_endsWith _ ".pdf".data ".txt".data h (by decide) (by decide)]
    rw [h]
    simp only [Bool.false_eq_true, if_false, if_true]
    rw [hg]
    simp
  · intro filename buf dec pdf h
    simp only [extractTextFromBuffer]
    rw [not_endsWith_of_endsWith _ ".docx".data ".txt".data h (by decide) (by decide)]
    rw [not_endsWith_of_endsWith _ ".docx".data ".pdf".data h (by decide) (by decide)]
    rw [h]
    simp

/-- Witness for C7: a concrete PDF whose parsed text is all punctuation
(letter density zero) is discarded. -/
theorem extract_total_and_fails_empty_witness :
    endsWithStr (jsToLower "a.pdf".data) ".pdf".data = true ∧
    looksGarbledText (safeStrL "????".data) = true ∧
    extractTextFromBuffer "a.pdf".data [] (fun _ => []) (.ok "????".data)
      (.ok []) = [] :=
  ⟨by decide, by decide,
    extract_total_and_fails_empty.2.1 "a.pdf".data [] (fun _ => []) (.ok [])
      "????".data (by decide) (by decide)⟩

/-- A run of a non-whitespace character is left untouched by the trim. -/
theorem trimChars_replicate (n : Nat) (c : Char) (hc : isJsWs c = false) :
    trimChars (List.replicate n c) = List.replicate n c := by
  unfold trimChars
  rw [List.dropWhile_replicate, if_neg (by simp [hc]), List.reverse_replicate,
    List.dropWhile_replicate, if_neg (by simp [hc]), List.reverse_replicate]

/-- The keyword counter of the classifier is a predicate count over the
keyword list. -/
theorem countAny_eq_countP (text : List Char) (keys : List (List Char)) :
    countAny text keys = List.countP (fun k => hasKw text k) keys := by
  unfold countAny
  suffices h : ∀ (ks : List (List Char)) (n : Nat),
      ks.foldl (fun n k => if hasKw text k then n + 1 else n) n =
        n + List.countP (fun k => hasKw text k) ks by
    simpa using h keys 0
  intro ks
  induction ks with
  | nil => intro n; simp
  | cons k t ih =>
    intro n
    rw [List.foldl_cons, ih, List.countP_cons]
    by_cases hk : hasKw text k = true
    · rw [if_pos hk, if_pos hk]
      omega
    · rw [if_neg hk, if_neg hk]
      omega

/-- A keyword containing a character that the text does not contain never
occurs in the text. -/
theorem hasKw_false_of_missing (text k : List Char) (c0 : Char) (hc : c0 ∈ k)
    (hn : c0 ∉ text) : hasKw text k = false := by
  unfold hasKw
  rw [decide_eq_false_iff_not]
  intro h
  exact hn (h.sublist.subset hc)

/-- A RESUME verdict implies at least 80 lower-case letters in the
lower-cased text (the short-text guard did not fire). -/
theorem classify_resume_letters (t : List Char)
    (h : classifyDocTypeFromText t = .RESUME) :
    80 ≤ (jsToLower t).countP (fun c => decide (97 ≤ c.toNat ∧ c.toNat ≤ 122)) := by
  by_contra hlt
  push_neg at hlt
  simp only [classifyDocTypeFromText, classifyCore] at h
  rw [if_pos hlt] at h
  exact absurd h (by decide)

/-- Whitespace characters are not alphabetic. -/
theorem ws_not_alpha (c : Char) (hc : isJsWs c = true) :
    (decide ((65 ≤ c.toNat ∧ c.toNat ≤ 90) ∨ (97 ≤ c.toNat ∧ c.toNat ≤ 122))) =
      false := by
  unfold isJsWs at hc
  rw [decide_eq_true_eq] at hc
  rw [decide_eq_false_iff_not]
  omega

/-- Dropping a whitespace run does not change a whitespace-free count. -/
theorem countP_dropWhile_of_ws (q : Char → Bool)
    (hq : ∀ c, isJsWs c = true → q c = false) (l : List Char) :
    List.countP q (List.dropWhile isJsWs l) = List.countP q l := by
  induction l with
  | nil => rfl
  | cons a t ih =>
    by_cases ha : isJsWs a = true
    · rw [List.dropWhile_cons, if_pos ha, ih, List.countP_cons, hq a ha]
      simp
    · rw [List.dropWhile_cons, if_neg ha]

/-- The trim does not change a whitespace-free count. -/
theorem countP_trimChars (q : Char → Bool)
    (hq : ∀ c, isJsWs c = true → q c = false) (l : List Char) :
    List.countP q (trimChars l) = List.countP q l := by
  rw [trimChars_eq_rdrop]
  unfold List.rdropWhile
  rw [List.countP_reverse, countP_dropWhile_of_ws q hq, List.countP_reverse,
    countP_dropWhile_of_ws q hq]

/-- A RESUME-classified text always passes the substantive-text pre-gate
of the AI block: its trimmed length exceeds 40, because at least 80 of
its characters are alphabetic and the trim only removes edge
whitespace. -/
theorem classify_resume_trim_gt40 (t : List Char)
    (h : classifyDocTypeFromText t = .RESUME) : 40 < (trimChars t).length := by
  have h80 := classify_resume_letters t h
  rw [letters_eq_specAlphaCount] at h80
  unfold specAlphaCount at h80
  have heq := countP_trimChars
    (fun c => decide ((65 ≤ c.toNat ∧ c.toNat ≤ 90) ∨ (97 ≤ c.toNat ∧ c.toNat ≤ 122)))
    ws_not_alpha t
  have hle := List.countP_le_length
    (p := fun c => decide ((65 ≤ c.toNat ∧ c.toNat ≤ 90) ∨ (97 ≤ c.toNat ∧ c.toNat ≤ 122)))
    (l := trimChars t)
  omega

/-- A synthetic resume text: three strong resume keywords followed by a
run of letters, length 23 + n. -/
def resumeStubText (n : Nat) : List Char :=
  "work experience skills ".data ++ List.replicate n 'a'

/-- The synthetic resume text is already lower-case. -/
theorem jsToLower_resumeStubText (n : Nat) :
    jsToLower (resumeStubText n) = resumeStubText n := by
  unfold resumeStubText jsToLower
  rw [List.map_append, List.map_replicate]
  rw [show List.map Char.toLower "work experience skills ".data =
    "work experience skills ".data from by decide]
  rw [show Char.toLower 'a' = 'a' from by decide]

/-- Length of the synthetic resume text. -/
theorem length_resumeStubText (n : Nat) :
    (resumeStubText n).length = 23 + n := by
  unfold resumeStubText
  rw [List.length_append, List.length_replicate]
  rfl

/-- No strong non-resume keyword occurs in the synthetic resume text:
each contains a character that the text does not. -/
theorem nonResume_absent_resumeStubText (n : Nat) :
    ∀ k ∈ nonResumeStrong, hasKw (resumeStubText n) k = false := by
  have hmem : ∀ (c0 : Char), c0 ∉ "work experience skills ".data → c0 ≠ 'a' →
      c0 ∉ resumeStubText n := by
    intro c0 h1 h2 hm
    unfold resumeStubText at hm
    rcases List.mem_append.mp hm with hm | hm
    · exact h1 hm
    · exact h2 (List.eq_of_mem_replicate hm)
  intro k hk
  fin_cases hk
  · exact hasKw_false_of_missing _ _ 'v' (by decide)
      (hmem 'v' (by decide) (by decide))
  · exact hasKw_false_of_missing _ _ 'm' (by decide)
      (hmem 'm' (by decide) (by decide))
  · exact hasKw_false_of_missing _ _ 'b' (by decide)
      (hmem 'b' (by decide) (by decide))
  · exact hasKw_false_of_missing _ _ 't' (by decide)
      (hmem 't' (by decide) (by decide))
  · exact hasKw_false_of_missing _ _ 'y' (by decide)
      (hmem 'y' (by decide) (by decide))
  · exact hasKw_false_of_missing _ _ 'b' (by decide)
      (hmem 'b' (by decide) (by decide))
  · exact hasKw_false_of_missing _ _ 'h' (by decide)
      (hmem 'h' (by decide) (by decide))
  · exact hasKw_false_of_missing _ _ 'h' (by decide)
      (hmem 'h' (by decide) (by decide))
  · exact hasKw_false_of_missing _ _ 'b' (by decide)
      (hmem 'b' (by decide) (by decide))
  · exact hasKw_false_of_missing _ _ 'm' (by decide)
      (hmem 'm' (by decide) (by decide))
  · exact hasKw_false_of_missing _ _ 'm' (by decide)
      (hmem 'm' (by decide) (by decide))

/-- The synthetic resume text classifies as RESUME for every run length
of at least 80: the letter guard passes and decision rule (a) fires. -/
theorem classify_resumeStubText (n : Nat) (hn : 80 ≤ n) :
    classifyDocTypeFromText (resumeStubText n) = .RESUME := by
  have hwork : hasKw (resumeStubText n) "work experience".data = true := by
    unfold hasKw
    rw [decide_eq_true_eq]
    have hp : "work experience".data <+: resumeStubText n := by
      unfold resumeStubText
      exact List.IsPrefix.trans (by decide) (List.prefix_append _ _)
    exact hp.isInfix
  have hanyR : hasAny (resumeStubText n) resumeStrong = true := by
    unfold hasAny
    rw [List.any_eq_true]
    exact ⟨"work experience".data, by decide, hwork⟩
  have hposR : 0 < countAny (resumeStubText n) resumeStrong := by
    rw [countAny_eq_countP, List.countP_pos_iff]
    exact ⟨"work experience".data, by decide, hwork⟩
  have hzeroN : countAny (resumeStubText n) nonResumeStrong = 0 := by
    rw [countAny_eq_countP, List.countP_eq_zero]
    intro k hk
    simp only [nonResume_absent_resumeStubText n k hk]
    decide
  have hletters : 80 ≤ (resumeStubText n).countP
      (fun c => decide (97 ≤ c.toNat ∧ c.toNat ≤ 122)) := by
    unfold resumeStubText
    rw [List.countP_append, List.countP_replicate,
      if_pos (by decide : (fun c => decide (97 ≤ c.toNat ∧ c.toNat ≤ 122)) 'a'
        = true)]
    omega
  simp only [classifyDocTypeFromText, classifyCore]
  rw [jsToLower_resumeStubText]
  rw [if_neg (by omega)]
  rw [if_pos ⟨hanyR, by rw [hzeroN]; omega⟩]

/-- The synthetic resume text has no edge whitespace to trim once the
letter run is non-empty. -/
theorem trimChars_resumeStubText (n : Nat) (hn : 1 ≤ n) :
    trimChars (resumeStubText n) = resumeStubText n := by
  have hdrop : List.dropWhile isJsWs (resumeStubText n) = resumeStubText n := by
    unfold resumeStubText
    rw [List.dropWhile_append]
    rw [show List.dropWhile isJsWs "work experience skills ".data =
      "work experience skills ".data from by decide]
    rw [if_neg (by decide)]
  rw [trimChars_eq_rdrop, hdrop]
  unfold List.rdropWhile resumeStubText
  rw [List.reverse_append, List.reverse_replicate, List.dropWhile_append,
    List.dropWhile_replicate]
  rw [if_neg (by decide : ¬(isJsWs 'a' = true))]
  rw [if_neg (by
    simp only [List.isEmpty_iff, List.replicate_eq_nil_iff]
    omega : ¬((List.replicate n 'a').isEmpty = true))]
  rw [List.reverse_append, List.reverse_reverse, List.reverse_replicate]

/-- What the scorer is sent for the long synthetic resume: the extracted
text cut to the first 60000 characters. -/
theorem take_resumeStubText :
    List.take MAX_OPENAI_CHARS (resumeStubText 59978) =
      "work experience skills ".data ++ List.replicate 59977 'a' := by
  unfold resumeStubText
  rw [List.take_append_eq_append_take, List.take_of_length_le (by decide),
    List.take_replicate,
    show ("work experience skills ".data).length = 23 from by decide]
  congr 1

/-- Counterexample to C5: a RESUME-classified extracted text of 60001
characters exceeds the per-request scoring cap MAX_OPENAI_CHARS (60000)
while staying within the extraction cap, and the AI block does NOT
produce a too-large skip: an upstream call is made, and the text sent is
the silently truncated 60000-character version of the extracted text, not
the extracted text itself. -/
theorem scoring_cap_counterexample :
    classifyDocTypeFromText (resumeStubText 59978) = .RESUME ∧
    MAX_OPENAI_CHARS < (resumeStubText 59978).length ∧
    (resumeStubText 59978).length ≤ MAX_EXTRACTED_CHARS ∧
    (aiPhase false .RESUME (resumeStubText 59978) false "s".data "c".data
        "hash:x".data none "d".data false false (.scored (some 50) [] [] [])).1 ≠
      .skipped "too_large".data ∧
    (aiPhase false .RESUME (resumeStubText 59978) false "s".data "c".data
        "hash:x".data none "d".data false false (.scored (some 50) [] [] [])).2.1 =
      some ("work experience skills ".data ++ List.replicate 59977 'a') ∧
    (aiPhase false .RESUME (resumeStubText 59978) false "s".data "c".data
        "hash:x".data none "d".data false false (.scored (some 50) [] [] [])).2.1 ≠
      some (resumeStubText 59978) := by
  have hchk : aiAlreadyProcessedToday false "s".data "c".data "hash:x".data none
      "d".data = (false, some ⟨"d".data, 0, [], "c".data, [], [], [], none⟩) := by
    decide
  have hne : resumeStubText 59978 ≠ [] := by
    apply List.ne_nil_of_length_pos
    rw [length_resumeStubText]
    norm_num
  have heval : aiPhase false .RESUME (resumeStubText 59978) false "s".data
      "c".data "hash:x".data none "d".data false false (.scored (some 50) [] [] []) =
      (.scored (some 50) [] [] [],
        some ("work experience skills ".data ++ List.replicate 59977 'a'),
        some ⟨"d".data, 0, [], "c".data, [], [], [], none⟩) := by
    unfold aiPhase
    rw [if_neg (by decide : ¬(false = true))]
    rw [if_pos ⟨rfl, by
      rw [trimChars_resumeStubText 59978 (by omega), length_resumeStubText]
      norm_num⟩]
    rw [if_neg (by decide : ¬(false = true))]
    rw [hchk]
    rw [if_pos ⟨hne, by rw [length_resumeStubText]; norm_num⟩]
    rw [if_neg (by decide : ¬(false = true))]
    rw [if_neg (by decide : ¬(false = true))]
    rw [take_resumeStubText]
  refine ⟨classify_resumeStubText 59978 (by omega), ?_, ?_, ?_, ?_, ?_⟩
  · rw [length_resumeStubText]
    norm_num [MAX_OPENAI_CHARS]
  · rw [length_resumeStubText]
    norm_num [MAX_EXTRACTED_CHARS]
  · rw [heval]
    intro hcon
    cases hcon
  · rw [heval]
  · rw [heval]
    simp only [ne_eq, Option.some.injEq]
    intro hcon
    have hlen := congrArg List.length hcon
    rw [List.length_append, List.length_replicate, length_resumeStubText,
      show ("work experience skills ".data).length = 23 from by decide] at hlen
    norm_num at hlen

/-- C5 as amended: a document over the extraction cap gets the hard
too-large skip with no upstream call; and whenever an upstream call is
made, the text sent to the scorer is the extracted text truncated to
MAX_OPENAI_CHARS characters (which silently truncates extracted text
longer than 60000 characters but within the extraction cap). -/
theorem scoring_size_gate_amended :
    (∀ (text sid cid tok : List Char) (row0 : Option TallyRow) (today : List Char)
      (gf st : Bool) (sr : AiVal),
      40 < (trimChars text).length →
      aiPhase false .RESUME text true sid cid tok row0 today gf st sr =
        (.skipped "too_large".data, none, row0)) ∧
    (∀ (blocked : Bool) (docType : DocType) (text : List Char) (tl : Bool)
      (sid cid tok : List Char) (row0 : Option TallyRow) (today : List Char)
      (gf st : Bool) (sr : AiVal) (sent : List Char),
      (aiPhase blocked docType text tl sid cid tok row0 today gf st sr).2.1 =
        some sent →
      sent = text.take MAX_OPENAI_CHARS) := by
  constructor
  · intro text sid cid tok row0 today gf st sr h40
    unfold aiPhase
    rw [if_neg (by simp), if_pos ⟨rfl, h40⟩, if_pos rfl]
  · intro blocked docType text tl sid cid tok row0 today gf st sr sent h
    unfold aiPhase at h
    by_cases hc : (aiAlreadyProcessedToday gf sid cid tok row0 today).1 = true <;>
      (repeat' split at h) <;> simp_all

/-- Witness for the amended C5: a concrete over-cap document gets the
hard too-large skip with no upstream call. -/
theorem scoring_size_gate_amended_witness :
    40 < (trimChars (List.replicate 50 'a')).length ∧
    aiPhase false .RESUME (List.replicate 50 'a') true "s".data "c".data
        "hash:x".data none "d".data false false .nullVal =
      (.skipped "too_large".data, none, none) :=
  ⟨by decide, scoring_size_gate_amended.1 (List.replicate 50 'a') "s".data "c".data
    "hash:x".data none "d".data false false .nullVal (by decide)⟩

/-- C8: for a RESUME document (a text the classifier marks RESUME) that
is not billing-blocked, not over the extraction cap, and not a duplicate
for today, extracted text of exactly the minimum scoring-length threshold
(120 characters) triggers an AI scoring call, and the whole text is sent;
text one character shorter (119 characters) produces a tagged too-short
skip with no upstream call. -/
theorem min_length_boundary :
    (∀ (text sid cid tok : List Char) (row0 : Option TallyRow) (today : List Char)
      (st : Bool) (sr : AiVal),
      classifyDocTypeFromText text = .RESUME →
      text.length = 120 →
      (aiAlreadyProcessedToday false sid cid tok row0 today).1 = false →
      (aiPhase false .RESUME text false sid cid tok row0 today false st sr).2.1 =
        some text) ∧
    (∀ (text sid cid tok : List Char) (row0 : Option TallyRow) (today : List Char)
      (gf st : Bool) (sr : AiVal),
      text.length = 119 →
      (aiPhase false .RESUME text false sid cid tok row0 today gf st sr).1 =
        .skipped "too_short".data ∧
      (aiPhase false .RESUME text false sid cid tok row0 today gf st sr).2.1 =
        none) := by
  constructor
  · intro text sid cid tok row0 today st sr hcls hlen hdup
    have h40 : 40 < (trimChars text).length := classify_resume_trim_gt40 text hcls
    have htake : List.take MAX_OPENAI_CHARS text = text := by
      apply List.take_of_length_le
      rw [hlen]
      norm_num [MAX_OPENAI_CHARS]
    unfold aiPhase
    rw [if_neg (by decide : ¬(false = true))]
    rw [if_pos ⟨rfl, h40⟩]
    rw [if_neg (by decide : ¬(false = true))]
    rw [if_pos ⟨List.ne_nil_of_length_pos (by rw [hlen]; norm_num),
      by rw [hlen]⟩]
    rw [if_neg (by rw [hdup]; decide : ¬((aiAlreadyProcessedToday false sid cid tok
      row0 today).1 = true))]
    rw [htake]
    cases st <;> rfl
  · intro text sid cid tok row0 today gf st sr hlen
    have hshort : ¬(text ≠ [] ∧ 120 ≤ text.length) := by
      rw [hlen]
      simp
    unfold aiPhase
    rw [if_neg (by decide : ¬(false = true))]
    by_cases h40 : DocType.RESUME = DocType.RESUME ∧ 40 < (trimChars text).length
    · rw [if_pos h40, if_neg (by decide : ¬(false = true)), if_neg hshort]
      exact ⟨rfl, rfl⟩
    · rw [if_neg h40]
      exact ⟨rfl, rfl⟩

/-- Witness for C8: a concrete RESUME-classified 120-character text is
sent to the scorer whole. -/
theorem min_length_boundary_witness :
    classifyDocTypeFromText (resumeStubText 97) = .RESUME ∧
    (resumeStubText 97).length = 120 ∧
    (aiAlreadyProcessedToday false "s".data "c".data "hash:x".data none
      "d".data).1 = false ∧
    (aiPhase false .RESUME (resumeStubText 97) false "s".data "c".data
        "hash:x".data none "d".data false false .nullVal).2.1 =
      some (resumeStubText 97) :=
  ⟨classify_resumeStubText 97 (by omega),
   by rw [length_resumeStubText], by decide,
   min_length_boundary.1 (resumeStubText 97) "s".data "c".data "hash:x".data
     none "d".data false .nullVal (classify_resumeStubText 97 (by omega))
     (by rw [length_resumeStubText]) (by decide)⟩

end ResumeSorter
